import Mathlib

/-!
Verification development for the dataset indexing and filter engine of the
Service-Intello reporting dashboard (`app.py`).

The Python source is shallowly embedded: Python `float` values are modelled
as exact rationals (`ℚ`), optional values as `Option`, Python dicts keyed by
string triples as functions from triples to lists, and Python object
identity (`id(r)`) as the position of a record in the dataset's row list.
String primitives (`strip`, `lower`, `split`, `replace`) are modelled by
structurally recursive functions on the character list so that every
definition evaluates inside the kernel.  The spreadsheet reader (`openpyxl`)
is an external collaborator; a dataset's load outcome is therefore modelled
as an `Except String` value fed to the constructor, mirroring the
`try`/`except` in `Dataset._load_and_index`.
-/

/-- Strip leading and trailing whitespace from a character list. -/
def stripList (l : List Char) : List Char :=
  ((l.dropWhile Char.isWhitespace).reverse.dropWhile Char.isWhitespace).reverse

/-- Model of Python `str.strip()` (no arguments). -/
def pyStrip (t : String) : String := ⟨stripList t.data⟩

/-- Model of Python `str.lower()`. -/
def pyLower (t : String) : String := ⟨t.data.map Char.toLower⟩

/-- Split a character list at commas; an empty list yields one empty part,
matching Python `str.split(",")`. -/
def splitCommaAux : List Char → List Char → List (List Char)
  | [], acc => [acc.reverse]
  | c :: cs, acc =>
    if c = ',' then acc.reverse :: splitCommaAux cs [] else splitCommaAux cs (c :: acc)

/-- Model of Python `t.split(",")`. -/
def pySplitComma (t : String) : List String :=
  (splitCommaAux t.data []).map (fun l => ⟨l⟩)

/-- Model of Python `t.replace(c, "")` for a single-character pattern:
every occurrence of the character is removed. -/
def removeChar (c : Char) (t : String) : String :=
  ⟨t.data.filter (fun x => decide (x ≠ c))⟩

/-- Whether the string ends with a percent sign, modelling
`t.endswith("%")`. -/
def endsPercent (t : String) : Bool := t.data.getLast? == some '%'

/-- Model of Python `t[:-1]`: drop the final character. -/
def dropLastChar (t : String) : String := ⟨t.data.dropLast⟩

/-- `MONTH_ORDER` from the source: fiscal-year month order Apr → Mar. -/
def MONTH_ORDER : List String :=
  ["Apr", "May", "Jun", "Jul", "Aug", "Sep", "Oct", "Nov", "Dec", "Jan", "Feb", "Mar"]

/-- Value of a list of decimal digit characters read left to right. -/
def digitsToNat (l : List Char) : ℕ :=
  l.foldl (fun a c => a * 10 + (c.toNat - 48)) 0

/-- Model of the Python builtin `float(t)` applied to a string, restricted to
plain decimal literals: optional sign, an integer part and an optional
fractional part, at least one digit overall.  Other forms accepted by the
builtin (exponents, `inf`, `nan`) are outside what the claims exercise; any
string this parser rejects yields `Option.none`, mirroring the `ValueError`
branch that `to_float` catches. -/
def pyFloat (t : String) : Option ℚ :=
  let l := t.data
  let sl : ℚ × List Char :=
    match l with
    | '-' :: rest => (-1, rest)
    | '+' :: rest => (1, rest)
    | _ => (1, l)
  let ip := sl.2.takeWhile Char.isDigit
  let rest := sl.2.dropWhile Char.isDigit
  match rest with
  | [] => if ip.isEmpty then Option.none else some (sl.1 * digitsToNat ip)
  | '.' :: frac =>
    if frac.all Char.isDigit && !(ip.isEmpty && frac.isEmpty) then
      some (sl.1 * ((digitsToNat ip : ℚ) + (digitsToNat frac : ℚ) / (10 ^ frac.length)))
    else Option.none
  | _ => Option.none

/-- Raw cell value as handed to the normalizers: Python `None`, a boolean,
a number, or a string. -/
inductive AnyVal where
  | vnone
  | vbool (b : Bool)
  | vnum (q : ℚ)
  | vstr (t : String)
deriving DecidableEq, Repr

/-- The string that `to_float` passes to `float(...)` after the sentinel
checks: commas and the currency symbol removed, surrounding whitespace
stripped, and a trailing percent sign (if any) dropped with a further
strip. -/
def cleanedArg (t0 : String) : String :=
  let t := pyStrip t0
  let t1 := pyStrip (removeChar '₹' (removeChar ',' t))
  if endsPercent t1 then pyStrip (dropLastChar t1) else t1

/-- `to_float` from the source: `None` and booleans yield absent; numbers
pass through; strings are stripped, checked against the not-available
sentinels, cleaned of commas / currency symbol / trailing percent, and
parsed, with parse failure yielding absent. -/
def to_float (v : AnyVal) : Option ℚ :=
  match v with
  | AnyVal.vnone => Option.none
  | AnyVal.vbool _ => Option.none
  | AnyVal.vnum q => some q
  | AnyVal.vstr t0 =>
    let t := pyStrip t0
    if t = "" then Option.none
    else if pyLower t ∈ (["na", "n/a", "none", "-"] : List String) then Option.none
    else pyFloat (cleanedArg t0)

/-- Round a rational to an integer, ties to even, modelling Python's
`round` on exact values. -/
def rhe (q : ℚ) : ℤ :=
  let f := ⌊q⌋
  let r := q - f
  if r < 1/2 then f else if 1/2 < r then f + 1 else if f % 2 = 0 then f else f + 1

/-- Rounding to two decimal places on the rational model. -/
def r2q (q : ℚ) : ℚ := (rhe (q * 100) : ℚ) / 100

/-- `r2` from the source: round to two decimals, absent stays absent (the
`try`/`except` branch never fires on numeric input, which is all the model
carries). -/
def r2 (v : Option ℚ) : Option ℚ :=
  match v with
  | Option.none => Option.none
  | some q => some (r2q q)

/-- OSAT normalization applied by `Dataset._load_excel` to the raw OSAT
cell: parse with `to_float`; a present value in the closed interval 0..1 is
scaled by 100 and rounded, any other present value is only rounded, absent
stays absent. -/
def osatNormalize (v : AnyVal) : Option ℚ :=
  match to_float v with
  | some x => if 0 ≤ x ∧ x ≤ 1 then r2 (some (x * 100)) else r2 (some x)
  | Option.none => r2 Option.none

/-- Python `(v or "All")` applied to an optional selector string: `None`
and the empty string fall back to `"All"`. -/
def orAll (v : Option String) : String :=
  match v with
  | some t => if t = "" then "All" else t
  | Option.none => "All"

/-- Body of `parse_sel` after the initial `strip`, shared verbatim by
`apply_filters` and `get_filters`: empty means all, the exact `"__NONE__"`
sentinel means an explicit empty selection, `"all"` case-insensitively means
all, and otherwise the input is split on commas with each part stripped and
empties dropped, falling back to all when nothing remains. -/
def parseCore (t : String) : List String :=
  if t = "" then ["all"]
  else if t = "__NONE__" then []
  else if pyLower t = "all" then ["all"]
  else
    let parts := ((pySplitComma t).map pyStrip).filter (fun p => decide (p ≠ ""))
    if parts = [] then ["all"] else parts

/-- `parse_sel` from the source: default absent/empty input to `"All"`,
strip, then dispatch on the result. -/
def parse_sel (v : Option String) : List String :=
  parseCore (pyStrip (orAll v))

/-- `key_norm` from the source: `(x or "All").strip().lower()`; an absent or
empty value therefore normalizes to the wildcard key `"all"`. -/
def key_norm (x : Option String) : String :=
  pyLower (pyStrip (match x with
    | some t => if t = "" then "All" else t
    | Option.none => "All"))

/-- A normalized record as assembled by `Dataset._load_excel`.  Field names
follow the Python dict keys: `month` is `"Month"`, `saName` is `"SA Name"`,
`division` is `"Division"`, `mileId` is `"Mile id"`, `linksTriggered` /
`response` / `nps` / `pctResponse` / `concernCount` / `cc1000` / `osat` are
the numeric columns.  `month` is always the detected sheet month string. -/
structure Rec where
  month : String
  saName : Option String
  division : Option String
  mileId : Option String
  linksTriggered : Option ℚ
  response : Option ℚ
  nps : Option ℚ
  pctResponse : Option ℚ
  concernCount : Option ℚ
  cc1000 : Option ℚ
  osat : Option ℚ
deriving DecidableEq, Repr

/-- Key triples of the composite index. -/
abbrev K3 := String × String × String

/-- Sort key used by `Dataset._build_indexes`:
`((r.get("Division") or ""), (r.get("SA Name") or ""), (r.get("Month") or ""))`. -/
def sortKey (r : Rec) : K3 :=
  (r.division.getD "", r.saName.getD "", r.month)

/-- Lexicographic order on sort-key triples, as Python compares tuples of
strings. -/
def tripleLe (p q : K3) : Prop :=
  p.1 < q.1 ∨ (p.1 = q.1 ∧ (p.2.1 < q.2.1 ∨ (p.2.1 = q.2.1 ∧ p.2.2 ≤ q.2.2)))

instance tripleLe.instDecidable : DecidableRel tripleLe := fun p q =>
  inferInstanceAs (Decidable (p.1 < q.1 ∨ (p.1 = q.1 ∧ (p.2.1 < q.2.1 ∨ (p.2.1 = q.2.1 ∧ p.2.2 ≤ q.2.2)))))

/-- Record comparison underlying the `rows.sort(key=...)` call. -/
def recLe (a b : Rec) : Prop := tripleLe (sortKey a) (sortKey b)

instance recLe.instDecidable : DecidableRel recLe := fun a b =>
  inferInstanceAs (Decidable (tripleLe (sortKey a) (sortKey b)))

theorem tripleLe_refl (p : K3) : tripleLe p p :=
  Or.inr ⟨rfl, Or.inr ⟨rfl, le_refl _⟩⟩

theorem tripleLe_total (p q : K3) : tripleLe p q ∨ tripleLe q p := by
  rcases lt_trichotomy p.1 q.1 with h | h | h
  · exact Or.inl (Or.inl h)
  · rcases lt_trichotomy p.2.1 q.2.1 with h2 | h2 | h2
    · exact Or.inl (Or.inr ⟨h, Or.inl h2⟩)
    · rcases le_total p.2.2 q.2.2 with h3 | h3
      · exact Or.inl (Or.inr ⟨h, Or.inr ⟨h2, h3⟩⟩)
      · exact Or.inr (Or.inr ⟨h.symm, Or.inr ⟨h2.symm, h3⟩⟩)
    · exact Or.inr (Or.inr ⟨h.symm, Or.inl h2⟩)
  · exact Or.inr (Or.inl h)

theorem tripleLe_trans {p q r : K3} (hpq : tripleLe p q) (hqr : tripleLe q r) :
    tripleLe p r := by
  rcases hpq with h1 | ⟨e1, rest1⟩
  · rcases hqr with h2 | ⟨e2, _⟩
    · exact Or.inl (lt_trans h1 h2)
    · exact Or.inl (e2 ▸ h1)
  · rcases hqr with h2 | ⟨e2, rest2⟩
    · exact Or.inl (e1 ▸ h2)
    · refine Or.inr ⟨e1.trans e2, ?_⟩
      rcases rest1 with h1' | ⟨e1', h1''⟩
      · rcases rest2 with h2' | ⟨e2', _⟩
        · exact Or.inl (lt_trans h1' h2')
        · exact Or.inl (e2' ▸ h1')
      · rcases rest2 with h2' | ⟨e2', h2''⟩
        · exact Or.inl (e1' ▸ h2')
        · exact Or.inr ⟨e1'.trans e2', le_trans h1'' h2''⟩

theorem tripleLe_of_eq {p q : K3} (h : p = q) : tripleLe p q := h ▸ tripleLe_refl p

instance : IsTotal Rec recLe := ⟨fun a b => tripleLe_total _ _⟩

instance : IsTrans Rec recLe := ⟨fun _ _ _ h h2 => tripleLe_trans h h2⟩

/-- In-memory state of a `Dataset` after `__init__` ran: the (sorted) row
list `data_rows`, the same rows tagged with their position (standing in for
Python object identity, used by the `id(r)` dedup in `apply_filters`), the
`available_months` list and the sticky `load_error`. -/
structure DatasetM where
  dataRows : List Rec
  rowsWithId : List (ℕ × Rec)
  availableMonths : List String
  loadError : Option String
deriving Repr

/-- `Dataset._load_and_index`: on a successful load keep the rows (sorted in
place by `_build_indexes` via `sortKey`) and months; on any load failure
store the message, fall back to zero rows and no months, and index the empty
list.  The `Except` argument stands for the outcome of `_load_excel`, whose
file I/O is external to this model. -/
def mkDataset (res : Except String (List Rec × List String)) : DatasetM :=
  match res with
  | Except.error e => ⟨[], [], [], some e⟩
  | Except.ok (rows, months) =>
    let sorted := List.insertionSort recLe rows
    ⟨sorted, sorted.enum, months, Option.none⟩

/-- The eight keys under which `_build_indexes` appends a record, in source
order: the base key followed by the seven wildcard combinations. -/
def entryKeys (r : Rec) : List K3 :=
  let m := key_norm (some r.month)
  let d := key_norm r.division
  let a := key_norm r.saName
  [(m, d, a), (m, d, "all"), (m, "all", a), (m, "all", "all"),
   ("all", d, a), ("all", d, "all"), ("all", "all", a), ("all", "all", "all")]

/-- All combinations of the specific key and the wildcard across the three
dimensions. -/
def comboKeys (m d a : String) : List K3 :=
  [m, "all"].bind (fun x => [d, "all"].bind (fun y => [a, "all"].map (fun z => (x, y, z))))

/-- Contents of the bucket `self.index[k]`: iterating the sorted rows in
order, each record is appended once per occurrence of `k` among its eight
registered keys (a `defaultdict(list)` accumulates exactly this). -/
def bucket (rows : List (ℕ × Rec)) (k : K3) : List (ℕ × Rec) :=
  rows.bind (fun ir => List.replicate ((entryKeys ir.2).count k) ir)

/-- The dataset's composite index, as a total lookup returning `[]` for
missing keys (`self.index.get(key, [])`). -/
def dsIndex (ds : DatasetM) (k : K3) : List (ℕ × Rec) := bucket ds.rowsWithId k

/-- The `seen`-set dedup loop of `apply_filters`, with Python `id(r)`
modelled by the row position tag. -/
def dedupAux : List (ℕ × Rec) → List ℕ → List (ℕ × Rec)
  | [], _ => []
  | x :: xs, seen =>
    if x.1 ∈ seen then dedupAux xs seen else x :: dedupAux xs (x.1 :: seen)

/-- `Dataset.apply_filters`: parse the three selectors, return `[]` if any
parsed list is empty, otherwise concatenate the index buckets over the
cartesian product of the selections, deduplicating by record identity. -/
def apply_filters (ds : DatasetM) (month division sa_name : Option String) :
    List (ℕ × Rec) :=
  let months := parse_sel month
  let divs := parse_sel division
  let sas := parse_sel sa_name
  if months = [] ∨ divs = [] ∨ sas = [] then []
  else
    dedupAux
      (months.bind fun mo => divs.bind fun di => sas.bind fun sa2 =>
        dsIndex ds (key_norm (some mo), key_norm (some di), key_norm (some sa2))) []

/-- Python `(o or "")` on an optional string. -/
def orEmpty (o : Option String) : String :=
  match o with
  | some t => t
  | Option.none => ""

/-- The `(month-key, division-text)` pairs inserted into `div_by_month` by
`_build_indexes`: one per sorted row whose raw month and division text are
non-empty. -/
def divByMonthEntries (ds : DatasetM) : List (String × String) :=
  ds.dataRows.filterMap (fun r =>
    let mTxt := pyStrip r.month
    let dTxt := pyStrip (orEmpty r.division)
    if mTxt ≠ "" ∧ dTxt ≠ "" then some (key_norm (some r.month), dTxt) else Option.none)

/-- The `((month-key, division-key), advisor-text)` triples inserted into
`sa_by_month_div` by `_build_indexes`. -/
def saByMonthDivEntries (ds : DatasetM) : List ((String × String) × String) :=
  ds.dataRows.filterMap (fun r =>
    let mTxt := pyStrip r.month
    let dTxt := pyStrip (orEmpty r.division)
    let aTxt := pyStrip (orEmpty r.saName)
    if mTxt ≠ "" ∧ dTxt ≠ "" ∧ aTxt ≠ "" then
      some ((key_norm (some r.month), key_norm r.division), aTxt)
    else Option.none)

/-- Python `sorted(set(l))` for string collections. -/
def sortDedup (l : List String) : List String :=
  List.insertionSort (fun a b => a ≤ b) l.dedup

/-- Result record of `Dataset.get_filters`. -/
structure FilterOut where
  months : List String
  divisions : List String
  sa_names : List String
deriving DecidableEq, Repr

/-- `Dataset.get_filters`: raise the sticky load error if set; otherwise
parse the two selectors and assemble the months, divisions and advisor
options exactly as the source does, every months field being
`self.available_months or MONTH_ORDER`. -/
def get_filters (ds : DatasetM) (selMonth selDiv : Option String) :
    Except String FilterOut :=
  match ds.loadError with
  | some e => Except.error e
  | Option.none =>
    let months := parse_sel selMonth
    let divs := parse_sel selDiv
    let monthsOut := if ds.availableMonths = [] then MONTH_ORDER else ds.availableMonths
    if months = [] then Except.ok ⟨monthsOut, [], []⟩
    else
      let monthsAll := (months.map pyLower).contains "all"
      let dEntries := divByMonthEntries ds
      let divisions :=
        if monthsAll then sortDedup (dEntries.map Prod.snd)
        else
          let wanted := months.map (fun mo => key_norm (some mo))
          sortDedup ((dEntries.filter (fun e => wanted.contains e.1)).map Prod.snd)
      if divs = [] then Except.ok ⟨monthsOut, divisions, []⟩
      else
        let wantAllDiv := (divs.map pyLower).contains "all"
        if monthsAll && wantAllDiv then
          Except.ok ⟨monthsOut, divisions,
            sortDedup (ds.dataRows.filterMap (fun r =>
              let t := pyStrip (orEmpty r.saName)
              if t = "" then Option.none else some t))⟩
        else if monthsAll then
          let wantDivs :=
            (divs.filter (fun d2 => decide (pyLower d2 ≠ "all"))).map
              (fun d2 => key_norm (some d2))
          Except.ok ⟨monthsOut, divisions,
            sortDedup (ds.dataRows.filterMap (fun r =>
              let t := pyStrip (orEmpty r.saName)
              if t ≠ "" ∧ wantDivs.contains (key_norm r.division) = true then some t
              else Option.none))⟩
        else
          let sEntries := saByMonthDivEntries ds
          let collected := months.bind (fun mo =>
            let mm := key_norm (some mo)
            if wantAllDiv then (sEntries.filter (fun e => e.1.1 == mm)).map Prod.snd
            else divs.bind (fun dv =>
              (sEntries.filter (fun e => e.1 == (mm, key_norm (some dv)))).map Prod.snd))
          Except.ok ⟨monthsOut, divisions, sortDedup collected⟩

/-- The four dataset singletons, by registry key. -/
inductive DSKey where
  | personal
  | meal
  | bodyshop
  | commercial
deriving DecidableEq, Repr

/-- The `DATASETS` registry mapping. -/
def DATASETS : List (String × DSKey) :=
  [("personal", DSKey.personal), ("meal", DSKey.meal),
   ("bodyshop", DSKey.bodyshop), ("commercial", DSKey.commercial)]

/-- `get_dataset` from the source:
`DATASETS.get((key or "").strip().lower(), PERSONAL)`. -/
def get_dataset (key : Option String) : DSKey :=
  (DATASETS.lookup (pyLower (pyStrip (orEmpty key)))).getD DSKey.personal

/-- The sixteen strings obtained from `"__NONE__"` by re-casing its four
letters. -/
def noneVariants : List String :=
  ["__none__", "__nonE__", "__noNe__", "__noNE__",
   "__nOne__", "__nOnE__", "__nONe__", "__nONE__",
   "__None__", "__NonE__", "__NoNe__", "__NoNE__",
   "__NOne__", "__NOnE__", "__NONe__", "__NONE__"]

/-- A sample loaded record with no Division and no numeric values, used to
exercise the absent-value paths. -/
def sampleNoDivision : Rec :=
  ⟨"Apr", some "Alice", Option.none, Option.none, Option.none, Option.none,
   Option.none, Option.none, Option.none, Option.none, Option.none⟩

example : parse_sel (some "All") = ["all"] := by decide
example : parse_sel (some "__NONE__") = [] := by decide
example : parse_sel (some " Apr , May ") = ["Apr", "May"] := by decide
example : parse_sel Option.none = ["all"] := by decide
example : parse_sel (some "__none__") = ["__none__"] := by decide
example : key_norm (some " Apr") = "apr" := by decide
example : key_norm Option.none = "all" := by decide
example : to_float (AnyVal.vstr " NA ") = Option.none := by decide
example : to_float (AnyVal.vstr "abc") = Option.none := by decide
example : to_float (AnyVal.vstr "1,234") = some 1234 := by
  have h : to_float (AnyVal.vstr "1,234") = some ((1 : ℚ) * (digitsToNat ['1','2','3','4'] : ℕ)) := rfl
  rw [h, show digitsToNat ['1','2','3','4'] = 1234 from by decide]
  norm_num
example : to_float (AnyVal.vstr "45%") = some 45 := by
  have h : to_float (AnyVal.vstr "45%") = some ((1 : ℚ) * (digitsToNat ['4','5'] : ℕ)) := rfl
  rw [h, show digitsToNat ['4','5'] = 45 from by decide]
  norm_num
example : to_float (AnyVal.vstr "₹2,500.50") = some (5001/2) := by
  have h : to_float (AnyVal.vstr "₹2,500.50") =
      some ((1 : ℚ) * ((digitsToNat ['2','5','0','0'] : ℕ) + ((digitsToNat ['5','0'] : ℕ) : ℚ) / (10 ^ 2))) := rfl
  rw [h, show digitsToNat ['2','5','0','0'] = 2500 from by decide,
    show digitsToNat ['5','0'] = 50 from by decide]
  norm_num
example : osatNormalize (AnyVal.vnum (17/20)) = some 85 := by
  have h : osatNormalize (AnyVal.vnum (17/20)) =
      if (0 : ℚ) ≤ 17/20 ∧ (17/20 : ℚ) ≤ 1 then r2 (some ((17/20) * 100)) else r2 (some (17/20)) := rfl
  rw [h, if_pos (by norm_num)]
  norm_num [r2, r2q, rhe]
example : osatNormalize (AnyVal.vnum 85) = some 85 := by
  have h : osatNormalize (AnyVal.vnum 85) =
      if (0 : ℚ) ≤ 85 ∧ (85 : ℚ) ≤ 1 then r2 (some (85 * 100)) else r2 (some 85) := rfl
  rw [h, if_neg (by norm_num)]
  norm_num [r2, r2q, rhe]
example : osatNormalize (AnyVal.vnum (3/2)) = some (3/2) := by
  have h : osatNormalize (AnyVal.vnum (3/2)) =
      if (0 : ℚ) ≤ 3/2 ∧ (3/2 : ℚ) ≤ 1 then r2 (some ((3/2) * 100)) else r2 (some (3/2)) := rfl
  rw [h, if_neg (by norm_num)]
  norm_num [r2, r2q, rhe]

example : get_dataset (some " MEAL ") = DSKey.meal := by decide
example : get_dataset (some "bogus") = DSKey.personal := by decide
example : get_dataset Option.none = DSKey.personal := by decide

theorem mem_bucket {rows : List (ℕ × Rec)} {k : K3} {ir : ℕ × Rec} :
    ir ∈ bucket rows k ↔ ir ∈ rows ∧ k ∈ entryKeys ir.2 := by
  unfold bucket
  simp only [List.mem_bind, List.mem_replicate]
  constructor
  · rintro ⟨x, hx, hcnt, rfl⟩
    exact ⟨hx, List.count_pos_iff.mp (Nat.pos_of_ne_zero hcnt)⟩
  · rintro ⟨hmem, hk⟩
    exact ⟨ir, hmem, Nat.pos_iff_ne_zero.mp (List.count_pos_iff.mpr hk), rfl⟩

theorem bucket_cons (x : ℕ × Rec) (xs : List (ℕ × Rec)) (k : K3) :
    bucket (x :: xs) k = List.replicate ((entryKeys x.2).count k) x ++ bucket xs k := by
  simp [bucket]

theorem count_bucket :
    ∀ (rows : List (ℕ × Rec)), (rows.map Prod.fst).Nodup →
      ∀ {ir : ℕ × Rec}, ir ∈ rows → ∀ k,
        (bucket rows k).count ir = (entryKeys ir.2).count k := by
  intro rows
  induction rows with
  | nil => intro _ ir h; cases h
  | cons x xs ih =>
    intro hnd ir hmem k
    have hnd2 : (x.1 :: xs.map Prod.fst).Nodup := by simpa using hnd
    have hx : x.1 ∉ xs.map Prod.fst := (List.nodup_cons.mp hnd2).1
    have hnd' : (xs.map Prod.fst).Nodup := (List.nodup_cons.mp hnd2).2
    rw [bucket_cons, List.count_append]
    rcases List.mem_cons.mp hmem with rfl | hmem2
    · rw [List.count_replicate_self]
      have hnot : ir ∉ bucket xs k := by
        intro hc
        rcases mem_bucket.mp hc with ⟨hin, _⟩
        exact hx (List.mem_map.mpr ⟨ir, hin, rfl⟩)
      rw [List.count_eq_zero.mpr hnot]
      simp
    · have hne : ir ≠ x := by
        intro he
        exact hx (he ▸ List.mem_map.mpr ⟨ir, hmem2, rfl⟩)
      have hrep : ir ∉ List.replicate ((entryKeys x.2).count k) x := by
        intro hc
        exact hne (List.eq_of_mem_replicate hc)
      rw [List.count_eq_zero.mpr hrep, ih hnd' hmem2 k]
      simp

theorem dedupAux_skip {x : ℕ × Rec} :
    ∀ (n : ℕ) (tail : List (ℕ × Rec)) (seen : List ℕ), x.1 ∈ seen →
      dedupAux (List.replicate n x ++ tail) seen = dedupAux tail seen := by
  intro n
  induction n with
  | zero => intro tail seen _; simp
  | succ m ih =>
    intro tail seen hx
    rw [List.replicate_succ, List.cons_append]
    show dedupAux (x :: (List.replicate m x ++ tail)) seen = dedupAux tail seen
    rw [dedupAux, if_pos hx]
    exact ih tail seen hx

theorem dedupAux_take {x : ℕ × Rec} (n : ℕ) (hn : n ≠ 0) (tail : List (ℕ × Rec))
    (seen : List ℕ) (hx : x.1 ∉ seen) :
    dedupAux (List.replicate n x ++ tail) seen = x :: dedupAux tail (x.1 :: seen) := by
  cases n with
  | zero => exact absurd rfl hn
  | succ m =>
    rw [List.replicate_succ, List.cons_append]
    show dedupAux (x :: (List.replicate m x ++ tail)) seen = _
    rw [dedupAux, if_neg hx]
    exact congrArg _ (dedupAux_skip m tail (x.1 :: seen) (List.mem_cons_self _ _))

theorem dedupAux_bucket :
    ∀ (rows : List (ℕ × Rec)) (k : K3) (seen : List ℕ),
      (rows.map Prod.fst).Nodup → (∀ ir ∈ rows, ir.1 ∉ seen) →
      (∀ ir ∈ rows, k ∈ entryKeys ir.2) →
      dedupAux (bucket rows k) seen = rows := by
  intro rows
  induction rows with
  | nil => intro k seen _ _ _; rfl
  | cons x xs ih =>
    intro k seen hnd hseen hk
    have hnd2 : (x.1 :: xs.map Prod.fst).Nodup := by simpa using hnd
    have hx : x.1 ∉ xs.map Prod.fst := (List.nodup_cons.mp hnd2).1
    have hnd' : (xs.map Prod.fst).Nodup := (List.nodup_cons.mp hnd2).2
    have hnz : (entryKeys x.2).count k ≠ 0 :=
      Nat.pos_iff_ne_zero.mp (List.count_pos_iff.mpr (hk x (List.mem_cons_self _ _)))
    rw [bucket_cons, dedupAux_take _ hnz _ _ (hseen x (List.mem_cons_self _ _))]
    refine congrArg _ (ih k (x.1 :: seen) hnd' ?_ ?_)
    · intro ir hir
      intro hc
      rcases List.mem_cons.mp hc with he | hin
      · exact hx (he ▸ List.mem_map.mpr ⟨ir, hir, rfl⟩)
      · exact hseen ir (List.mem_cons_of_mem _ hir) hin
    · intro ir hir
      exact hk ir (List.mem_cons_of_mem _ hir)

theorem allallall_mem_entryKeys (r : Rec) : ("all", "all", "all") ∈ entryKeys r := by
  simp [entryKeys]

theorem rowsWithId_fst_nodup (rows : List Rec) (months : List String) :
    ((mkDataset (Except.ok (rows, months))).rowsWithId.map Prod.fst).Nodup := by
  simp only [mkDataset]
  exact List.nodup_enum_map_fst _

theorem apply_filters_all_eq (rows : List Rec) (months : List String) :
    apply_filters (mkDataset (Except.ok (rows, months))) (some "All") (some "All") (some "All")
      = (mkDataset (Except.ok (rows, months))).rowsWithId := by
  have hparse : parse_sel (some "All") = ["all"] := by decide
  have hkey : key_norm (some "all") = "all" := by decide
  unfold apply_filters
  rw [hparse]
  rw [if_neg (by simp)]
  simp only [List.cons_bind, List.nil_bind, List.append_nil, hkey]
  unfold dsIndex
  exact dedupAux_bucket _ _ [] (rowsWithId_fst_nodup rows months)
    (fun ir _ => List.not_mem_nil _) (fun ir _ => allallall_mem_entryKeys _)

theorem filter_orderedInsert (k : K3) (a : Rec) (l : List Rec) :
    (List.orderedInsert recLe a l).filter (fun r => decide (sortKey r = k)) =
    (if sortKey a = k then [a] else []) ++ l.filter (fun r => decide (sortKey r = k)) := by
  induction l with
  | nil =>
    by_cases hak : sortKey a = k <;> simp [List.orderedInsert, hak]
  | cons b l ih =>
    by_cases hab : recLe a b
    · by_cases hak : sortKey a = k <;> by_cases hbk : sortKey b = k <;>
        simp [List.orderedInsert, hab, List.filter_cons, hak, hbk]
    · have hba : sortKey b ≠ sortKey a := fun he => hab (tripleLe_of_eq he.symm)
      simp only [List.orderedInsert, if_neg hab, List.filter_cons]
      by_cases hbk : sortKey b = k
      · have hak : sortKey a ≠ k := fun hak2 => hba (hbk.trans hak2.symm)
        simp [hbk, hak, ih]
      · simp [hbk, ih]

theorem filter_insertionSort (k : K3) (l : List Rec) :
    (List.insertionSort recLe l).filter (fun r => decide (sortKey r = k)) =
    l.filter (fun r => decide (sortKey r = k)) := by
  induction l with
  | nil => rfl
  | cons a l ih =>
    show (List.orderedInsert recLe a (List.insertionSort recLe l)).filter _ = _
    rw [filter_orderedInsert, ih]
    by_cases hak : sortKey a = k <;> simp [List.filter_cons, hak]

theorem rowsWithId_map_snd (rows : List Rec) (months : List String) :
    (mkDataset (Except.ok (rows, months))).rowsWithId.map Prod.snd
      = (mkDataset (Except.ok (rows, months))).dataRows := by
  simp [mkDataset, List.enum_map_snd]

theorem get_filters_months_eq (ds : DatasetM) (selM selD : Option String)
    (out : FilterOut) (h : get_filters ds selM selD = Except.ok out) :
    out.months = if ds.availableMonths = [] then MONTH_ORDER else ds.availableMonths := by
  unfold get_filters at h
  cases hle : ds.loadError with
  | some e => rw [hle] at h; exact absurd h (by simp)
  | none =>
    rw [hle] at h
    simp only at h
    split at h
    · rcases Except.ok.inj h with rfl; rfl
    · split at h
      · rcases Except.ok.inj h with rfl; rfl
      · split at h
        · rcases Except.ok.inj h with rfl; rfl
        · split at h
          · rcases Except.ok.inj h with rfl; rfl
          · rcases Except.ok.inj h with rfl; rfl

theorem count_k3_instances (x : K3) (l : List K3) :
    @List.count K3 instBEqProd x l = @List.count K3 instBEqOfDecidableEq x l := by
  induction l with
  | nil => rfl
  | cons a l ih =>
    rw [@List.count_cons K3 instBEqProd, @List.count_cons K3 instBEqOfDecidableEq, ih]
    simp only [beq_iff_eq, instBEqOfDecidableEq, decide_eq_true_eq]

/-- C1: for every record inserted into the composite index, the eight keys
registered for it are exactly all combinations of its specific lowercased
month / division / advisor keys with the wildcard `"all"`, the record is
retrievable from a bucket exactly at those keys, and the total number of
index entries holding the record (counted with multiplicity across buckets)
is exactly 8 — also for records whose Division or SA Name is absent, whose
specific key coincides with the wildcard. -/
theorem c1_index_eight_entries (rows : List Rec) (months : List String) (i : ℕ) (r : Rec)
    (h : (i, r) ∈ (mkDataset (Except.ok (rows, months))).rowsWithId) :
    entryKeys r = comboKeys (key_norm (some r.month)) (key_norm r.division) (key_norm r.saName)
  ∧ (∀ k : K3, ((i, r) ∈ dsIndex (mkDataset (Except.ok (rows, months))) k ↔ k ∈ entryKeys r))
  ∧ (∑ k ∈ (entryKeys r).toFinset,
      (dsIndex (mkDataset (Except.ok (rows, months))) k).count (i, r)) = 8 := by
  refine ⟨rfl, ?_, ?_⟩
  · intro k
    rw [dsIndex, mem_bucket]
    exact ⟨fun hc => hc.2, fun hk => ⟨h, hk⟩⟩
  · have hcnt : ∀ k : K3,
        (dsIndex (mkDataset (Except.ok (rows, months))) k).count (i, r)
          = (entryKeys r).count k :=
      fun k => count_bucket _ (rowsWithId_fst_nodup rows months) h k
    calc ∑ k ∈ (entryKeys r).toFinset,
          (dsIndex (mkDataset (Except.ok (rows, months))) k).count (i, r)
        = ∑ k ∈ (entryKeys r).toFinset, (entryKeys r).count k :=
          Finset.sum_congr rfl (fun k _ => hcnt k)
      _ = (entryKeys r).length := by
          have hms := Multiset.toFinset_sum_count_eq (↑(entryKeys r) : Multiset K3)
          rw [Multiset.coe_card] at hms
          rw [← hms]
          refine Finset.sum_congr rfl ?_
          intro x _
          rw [Multiset.coe_count]
          exact count_k3_instances x (entryKeys r)
      _ = 8 := by simp [entryKeys]

theorem c1_index_eight_entries_witness :
    ((0, sampleNoDivision) ∈ (mkDataset (Except.ok ([sampleNoDivision], ["Apr"]))).rowsWithId)
  ∧ (∑ k ∈ (entryKeys sampleNoDivision).toFinset,
      (dsIndex (mkDataset (Except.ok ([sampleNoDivision], ["Apr"]))) k).count
        (0, sampleNoDivision)) = 8 :=
  ⟨by decide,
   (c1_index_eight_entries [sampleNoDivision] ["Apr"] 0 sampleNoDivision (by decide)).2.2⟩

/-- C2 counterexample: a dataset that loaded successfully but has no
available months (no month-named sheets) answers a filters query with the
full fiscal `MONTH_ORDER`, not with its empty available-months list, because
the source returns `self.available_months or MONTH_ORDER`. -/
theorem c2_months_counterexample :
    (mkDataset (Except.ok ([], []))).availableMonths = []
  ∧ get_filters (mkDataset (Except.ok ([], []))) (some "All") (some "All")
      = Except.ok ⟨MONTH_ORDER, [], []⟩
  ∧ MONTH_ORDER ≠ ([] : List String) :=
  ⟨rfl, rfl, by decide⟩

/-- C2 (amended): for every dataset and every month/division selection, the
months list returned by a successful `get_filters` call equals the dataset's
full available-months list when that list is non-empty, and the full fiscal
`MONTH_ORDER` when it is empty — in both cases independent of the
selection. -/
theorem c2_months_amended (ds : DatasetM) (selM selD : Option String) (out : FilterOut)
    (h : get_filters ds selM selD = Except.ok out) :
    out.months = if ds.availableMonths = [] then MONTH_ORDER else ds.availableMonths :=
  get_filters_months_eq ds selM selD out h

theorem c2_months_amended_witness :
    get_filters (mkDataset (Except.ok ([], ["Apr"]))) (some "__NONE__") (some "X")
      = Except.ok ⟨["Apr"], [], []⟩
  ∧ (FilterOut.mk ["Apr"] [] []).months
      = if (mkDataset (Except.ok ([], ["Apr"]))).availableMonths = [] then MONTH_ORDER
        else (mkDataset (Except.ok ([], ["Apr"]))).availableMonths :=
  ⟨rfl, c2_months_amended (mkDataset (Except.ok ([], ["Apr"]))) (some "__NONE__") (some "X")
    (FilterOut.mk ["Apr"] [] []) rfl⟩

/-- C3: `apply_filters("All","All","All")` returns exactly the dataset's
full (sorted, position-tagged) record list: the result equals `rowsWithId`,
whose value part is precisely `data_rows` and which holds each record
exactly once — even though records with absent Division or SA Name occur
several times in the `("all","all","all")` bucket, the identity dedup emits
them once. -/
theorem c3_apply_filters_all (rows : List Rec) (months : List String) :
    apply_filters (mkDataset (Except.ok (rows, months))) (some "All") (some "All") (some "All")
      = (mkDataset (Except.ok (rows, months))).rowsWithId
  ∧ (mkDataset (Except.ok (rows, months))).rowsWithId.map Prod.snd
      = (mkDataset (Except.ok (rows, months))).dataRows
  ∧ (mkDataset (Except.ok (rows, months))).rowsWithId.Nodup :=
  ⟨apply_filters_all_eq rows months, rowsWithId_map_snd rows months,
   List.Nodup.of_map Prod.fst (rowsWithId_fst_nodup rows months)⟩

/-- C4: a dataset whose load failed (file missing or any other load error)
is still constructed: the message is stored in the sticky `load_error`, the
dataset holds zero records and no available months, and any subsequent
filters query fails with exactly the stored message instead of returning a
result. -/
theorem c4_load_error_sticky (e : String) (selM selD : Option String) :
    (mkDataset (Except.error e)).loadError = some e
  ∧ (mkDataset (Except.error e)).dataRows = []
  ∧ (mkDataset (Except.error e)).availableMonths = []
  ∧ get_filters (mkDataset (Except.error e)) selM selD = Except.error e :=
  ⟨rfl, rfl, rfl, rfl⟩

/-- C5: `apply_filters` with the advisor selector `"__NONE__"` returns the
empty list for every dataset and every month/division selector; more
generally, whenever any of the three parsed selector lists is empty the
result is empty. -/
theorem c5_none_selector_empty :
    (∀ (ds : DatasetM) (m d : Option String), apply_filters ds m d (some "__NONE__") = [])
  ∧ (∀ (ds : DatasetM) (m d a : Option String),
      parse_sel m = [] ∨ parse_sel d = [] ∨ parse_sel a = [] →
      apply_filters ds m d a = []) := by
  constructor
  · intro ds m d
    simp only [apply_filters]
    rw [show parse_sel (some "__NONE__") = [] from by decide]
    rw [if_pos (Or.inr (Or.inr rfl))]
  · intro ds m d a h
    simp only [apply_filters]
    rw [if_pos h]

theorem c5_none_selector_empty_witness :
    (parse_sel (some "__NONE__") = ([] : List String)
      ∨ parse_sel (some "All") = [] ∨ parse_sel (some "All") = [])
  ∧ apply_filters (mkDataset (Except.ok ([sampleNoDivision], ["Apr"])))
      (some "__NONE__") (some "All") (some "All") = [] :=
  ⟨Or.inl (by decide),
   c5_none_selector_empty.2 (mkDataset (Except.ok ([sampleNoDivision], ["Apr"])))
     (some "__NONE__") (some "All") (some "All") (Or.inl (by decide))⟩

/-- C6: `to_float` returns absent for null, booleans, strings that are
empty after stripping, and the case-insensitive not-available sentinels;
passes numbers through unchanged; strips commas and the currency symbol and
a trailing percent sign from strings, taking the numeric value literally
(`"45%"` parses to `45`, not `0.45`); and yields absent, never an error,
whenever the cleaned string fails to parse. -/
theorem c6_to_float_spec :
    to_float AnyVal.vnone = Option.none
  ∧ (∀ b, to_float (AnyVal.vbool b) = Option.none)
  ∧ (∀ q, to_float (AnyVal.vnum q) = some q)
  ∧ (∀ t, pyStrip t = "" → to_float (AnyVal.vstr t) = Option.none)
  ∧ (∀ t, pyLower (pyStrip t) ∈ (["na", "n/a", "none", "-"] : List String) →
      to_float (AnyVal.vstr t) = Option.none)
  ∧ to_float (AnyVal.vstr "1,234") = some 1234
  ∧ to_float (AnyVal.vstr "₹2,500.50") = some (5001/2)
  ∧ to_float (AnyVal.vstr "45%") = some 45
  ∧ (∀ t, pyFloat (cleanedArg t) = Option.none →
      to_float (AnyVal.vstr t) = Option.none) := by
  refine ⟨rfl, fun b => rfl, fun q => rfl, ?_, ?_, ?_, ?_, ?_, ?_⟩
  · intro t h
    simp [to_float, h]
  · intro t h
    by_cases he : pyStrip t = ""
    · simp [to_float, he]
    · simp [to_float, he, h]
  · have h : to_float (AnyVal.vstr "1,234")
        = some ((1 : ℚ) * (digitsToNat ['1','2','3','4'] : ℕ)) := rfl
    rw [h, show digitsToNat ['1','2','3','4'] = 1234 from by decide]
    norm_num
  · have h : to_float (AnyVal.vstr "₹2,500.50")
        = some ((1 : ℚ) * ((digitsToNat ['2','5','0','0'] : ℕ)
            + ((digitsToNat ['5','0'] : ℕ) : ℚ) / (10 ^ 2))) := rfl
    rw [h, show digitsToNat ['2','5','0','0'] = 2500 from by decide,
      show digitsToNat ['5','0'] = 50 from by decide]
    norm_num
  · have h : to_float (AnyVal.vstr "45%")
        = some ((1 : ℚ) * (digitsToNat ['4','5'] : ℕ)) := rfl
    rw [h, show digitsToNat ['4','5'] = 45 from by decide]
    norm_num
  · intro t h
    by_cases he : pyStrip t = ""
    · simp [to_float, he]
    · by_cases hs : pyLower (pyStrip t) ∈ (["na", "n/a", "none", "-"] : List String)
      · simp [to_float, he, hs]
      · simp [to_float, he, hs, h]

theorem c6_to_float_spec_witness :
    pyLower (pyStrip " N/A ") ∈ (["na", "n/a", "none", "-"] : List String)
  ∧ to_float (AnyVal.vstr " N/A ") = Option.none :=
  ⟨by decide, c6_to_float_spec.2.2.2.2.1 " N/A " (by decide)⟩

/-- C7: OSAT normalization at load time: a present parsed value in the
closed interval 0..1 is stored as `r2(v * 100)`, any other present value as
`r2(v)`, and an absent value stays absent; in particular raw `0.85` yields
`85.0`, raw `85` yields `85.0` and raw `1.5` stays `1.5`. -/
theorem c7_osat_normalization :
    (∀ (v : AnyVal) (q : ℚ), to_float v = some q →
      osatNormalize v = some (if 0 ≤ q ∧ q ≤ 1 then r2q (q * 100) else r2q q))
  ∧ (∀ v, to_float v = Option.none → osatNormalize v = Option.none)
  ∧ osatNormalize (AnyVal.vnum (17/20)) = some 85
  ∧ osatNormalize (AnyVal.vnum 85) = some 85
  ∧ osatNormalize (AnyVal.vnum (3/2)) = some (3/2) := by
  refine ⟨?_, ?_, ?_, ?_, ?_⟩
  · intro v q h
    unfold osatNormalize
    rw [h]
    by_cases hq : 0 ≤ q ∧ q ≤ 1 <;> simp [hq, r2]
  · intro v h
    unfold osatNormalize
    rw [h]
    rfl
  · have h : osatNormalize (AnyVal.vnum (17/20))
        = if (0 : ℚ) ≤ 17/20 ∧ (17/20 : ℚ) ≤ 1 then r2 (some ((17/20) * 100))
          else r2 (some (17/20)) := rfl
    rw [h, if_pos (by norm_num)]
    norm_num [r2, r2q, rhe]
  · have h : osatNormalize (AnyVal.vnum 85)
        = if (0 : ℚ) ≤ 85 ∧ (85 : ℚ) ≤ 1 then r2 (some (85 * 100)) else r2 (some 85) := rfl
    rw [h, if_neg (by norm_num)]
    norm_num [r2, r2q, rhe]
  · have h : osatNormalize (AnyVal.vnum (3/2))
        = if (0 : ℚ) ≤ 3/2 ∧ (3/2 : ℚ) ≤ 1 then r2 (some ((3/2) * 100))
          else r2 (some (3/2)) := rfl
    rw [h, if_neg (by norm_num)]
    norm_num [r2, r2q, rhe]

theorem c7_osat_normalization_witness :
    to_float (AnyVal.vnum 42) = some 42
  ∧ osatNormalize (AnyVal.vnum 42)
      = some (if (0 : ℚ) ≤ 42 ∧ (42 : ℚ) ≤ 1 then r2q (42 * 100) else r2q 42) :=
  ⟨rfl, c7_osat_normalization.1 (AnyVal.vnum 42) 42 rfl⟩

/-- C8: after construction the dataset's own record list is sorted by the
(Division, SA Name, Month) triple with absent values read as the empty
string, the sort is stable (records with equal keys keep their load order)
and in place (the list is a permutation of the loaded rows), and
`apply_filters("All","All","All")` returns the records in exactly that
sorted order. -/
theorem c8_sorted_stably (rows : List Rec) (months : List String) :
    List.Sorted recLe (mkDataset (Except.ok (rows, months))).dataRows
  ∧ (∀ k : K3,
      (mkDataset (Except.ok (rows, months))).dataRows.filter (fun r => decide (sortKey r = k))
        = rows.filter (fun r => decide (sortKey r = k)))
  ∧ (mkDataset (Except.ok (rows, months))).dataRows.Perm rows
  ∧ apply_filters (mkDataset (Except.ok (rows, months))) (some "All") (some "All") (some "All")
      = (mkDataset (Except.ok (rows, months))).rowsWithId := by
  refine ⟨?_, ?_, ?_, apply_filters_all_eq rows months⟩
  · simpa [mkDataset] using List.sorted_insertionSort recLe rows
  · intro k
    simpa [mkDataset] using filter_insertionSort k rows
  · simpa [mkDataset] using List.perm_insertionSort recLe rows

/-- C9: `get_dataset` falls back to the Personal dataset for every key
whose trimmed lowercase form is none of the four registry keys, including
null and empty input. -/
theorem c9_get_dataset_default :
    (∀ k : Option String,
      pyLower (pyStrip (orEmpty k)) ∉ (["personal", "meal", "bodyshop", "commercial"] : List String) →
      get_dataset k = DSKey.personal)
  ∧ get_dataset Option.none = DSKey.personal
  ∧ get_dataset (some "") = DSKey.personal := by
  refine ⟨?_, rfl, rfl⟩
  intro k h
  simp only [List.mem_cons, List.not_mem_nil, or_false, not_or] at h
  obtain ⟨h1, h2, h3, h4⟩ := h
  have e1 : (pyLower (pyStrip (orEmpty k)) == "personal") = false := beq_eq_false_iff_ne.mpr h1
  have e2 : (pyLower (pyStrip (orEmpty k)) == "meal") = false := beq_eq_false_iff_ne.mpr h2
  have e3 : (pyLower (pyStrip (orEmpty k)) == "bodyshop") = false := beq_eq_false_iff_ne.mpr h3
  have e4 : (pyLower (pyStrip (orEmpty k)) == "commercial") = false := beq_eq_false_iff_ne.mpr h4
  simp [get_dataset, DATASETS, List.lookup, e1, e2, e3, e4]

theorem c9_get_dataset_default_witness :
    pyLower (pyStrip (orEmpty (some " Unknown ")))
      ∉ (["personal", "meal", "bodyshop", "commercial"] : List String)
  ∧ get_dataset (some " Unknown ") = DSKey.personal :=
  ⟨by decide, c9_get_dataset_default.1 (some " Unknown ") (by decide)⟩

/-- C10: the `"__NONE__"` sentinel is matched exactly and case-sensitively
after trimming: any input whose trimmed form is exactly `"__NONE__"` parses
to the empty selection, while every other re-casing of the sentinel (such
as `"__none__"`) parses as an ordinary one-element literal selection. -/
theorem c10_none_sentinel_case_sensitive :
    (∀ v : Option String, pyStrip (orAll v) = "__NONE__" → parse_sel v = [])
  ∧ (∀ (v : Option String) (t : String), t ∈ noneVariants → t ≠ "__NONE__" →
      pyStrip (orAll v) = t → parse_sel v = [t]) := by
  constructor
  · intro v h
    unfold parse_sel
    rw [h]
    decide
  · intro v t ht hne h
    unfold parse_sel
    rw [h]
    fin_cases ht <;> first | (exact absurd rfl hne) | decide

theorem c10_none_sentinel_case_sensitive_witness :
    (pyStrip (orAll (some "  __NONE__  ")) = "__NONE__"
      ∧ parse_sel (some "  __NONE__  ") = [])
  ∧ ("__None__" ∈ noneVariants ∧ "__None__" ≠ "__NONE__"
      ∧ pyStrip (orAll (some "__None__")) = "__None__"
      ∧ parse_sel (some "__None__") = ["__None__"]) :=
  ⟨⟨by decide, c10_none_sentinel_case_sensitive.1 (some "  __NONE__  ") (by decide)⟩,
   ⟨by decide, by decide, by decide,
    c10_none_sentinel_case_sensitive.2 (some "__None__") "__None__" (by decide) (by decide)
      (by decide)⟩⟩
